import Mathlib

/-!
Verification development for the Angular CLI esbuild Sass plugin
(`packages/angular_devkit/build_angular/src/builders/browser-esbuild/stylesheets/sass-plugin.ts`).

The TypeScript source is shallowly embedded: pure helpers become Lean
functions; external collaborators (the esbuild resolver, the Sass compiler
worker, the filesystem, the load-result cache) become explicit oracle
parameters; exceptions become `Except`/`Option` results.  Paths are POSIX
strings, as in the plugin's own path handling.
-/

/-- Model of a `file:` URL object (Node `URL` with the `file:` scheme).
`pathToFileURL` wraps a filesystem path; `fileURLToPath` on such an object
recovers the path. -/
structure FileURL where
  path : String
deriving DecidableEq

/-- Node `url.pathToFileURL` restricted to the information the plugin uses. -/
def pathToFileURL (p : String) : FileURL := { path := p }

/-- Node `url.fileURLToPath` applied to a `file:` URL object. -/
def fileURLToPath (u : FileURL) : String := u.path

/-- JavaScript `String.prototype.startsWith`: a character-level prefix
test. -/
def strStartsWith (s pre : String) : Bool :=
  pre.toList.isPrefixOf s.toList

/-- Node `url.fileURLToPath` applied to a string: valid only for `file://`
URLs; any other string makes Node throw `ERR_INVALID_URL`, modelled as
`none`.  Percent-decoding is omitted (no source in scope contains escapes). -/
def fileURLToPathS (url : String) : Option String :=
  if strStartsWith url "file://" then some (String.mk (url.toList.drop 7)) else none

/-- Node POSIX `path.dirname`: strip trailing slashes, then drop the last
path component; a name with no slash gives `"."`, the root gives `"/"`. -/
def dirname (p : String) : String :=
  if p = "" then "."
  else
    match p.toList.reverse.dropWhile (fun c => c = '/') with
    | [] => "/"
    | stripped =>
      match stripped.dropWhile (fun c => c ≠ '/') with
      | [] => "."
      | _ :: rest => if rest.isEmpty then "/" else String.mk rest.reverse

/-- Node POSIX `path.extname`: the suffix of the basename from its last dot,
empty when the basename has no dot or only a leading dot. -/
def extname (p : String) : String :=
  let base := p.toList.reverse.takeWhile (fun c => c ≠ '/')
  let pre := base.takeWhile (fun c => c ≠ '.')
  if pre.length + 1 < base.length then String.mk ('.' :: pre.reverse) else ""

/-- Join a nonempty segment list with `/` separators. -/
def joinSegs : List String → String
  | [] => ""
  | [s] => s
  | s :: rest => s ++ "/" ++ joinSegs rest

/-- Node POSIX `path.join` on the inputs the plugin produces: empty segments
are dropped and the rest joined with `/`; an all-empty argument list gives
`"."`.  Node additionally normalizes `.`/`..` segments, which no input in
this development contains, so normalization is omitted. -/
def joinPaths (parts : List String) : String :=
  let nonempty := parts.filter (fun s => s ≠ "")
  if nonempty.isEmpty then "." else joinSegs nonempty

/-- JavaScript `String.prototype.split` with a single-character separator,
on character lists: separators delimit (possibly empty) groups, and the
empty string yields one empty group, as in JavaScript. -/
def splitCharAux (sep : Char) : List Char → List (List Char)
  | [] => [[]]
  | c :: cs =>
    if c = sep then [] :: splitCharAux sep cs
    else
      match splitCharAux sep cs with
      | [] => [[c]]
      | g :: gs => (c :: g) :: gs

/-- JavaScript `s.split(sep)` for a one-character separator. -/
def splitString (sep : Char) (s : String) : List String :=
  (splitCharAux sep s.toList).map String.mk

/-- Split a path into its nonempty `/`-separated segments. -/
def pathSegments (p : String) : List String :=
  (splitString '/' p).filter (fun s => s ≠ "")

/-- Drop the longest common leading run of two segment lists. -/
def stripCommon : List String → List String → List String × List String
  | a :: as, b :: bs =>
    if a = b then stripCommon as bs else (a :: as, b :: bs)
  | as, bs => (as, bs)

/-- Node POSIX `path.relative` for the absolute inputs the plugin passes:
drop the common prefix of the two paths, then climb with `..` for each
remaining segment of the start path. -/
def relativePath (root : String) (target : String) : String :=
  let (fr, tr) := stripCommon (pathSegments root) (pathSegments target)
  joinSegs (fr.map (fun _ => "..") ++ tr)

/-- esbuild `PartialMessage.location` fields the plugin populates. -/
structure ESLocation where
  file : Option String
  lineText : Option String
  line : Nat
  column : Nat
deriving DecidableEq

/-- esbuild note attached to a message. -/
structure ESNote where
  text : String
deriving DecidableEq

/-- esbuild `PartialMessage`: diagnostic text with optional location/notes. -/
structure EsbuildMessage where
  text : String
  location : Option ESLocation
  notes : Option (List ESNote)
deriving DecidableEq

/-- esbuild `OnLoadResult` as the plugin builds it: `none` fields model
`undefined` in the JavaScript object. -/
structure OnLoadResult where
  loader : String
  contents : Option String
  errors : Option (List EsbuildMessage)
  warnings : List EsbuildMessage
  watchFiles : Option (List String)
deriving DecidableEq

/-- The Sass syntax dialect chosen by the plugin (`'indented'` or `'scss'`). -/
inductive SassDialect where
  | indented
  | scss
deriving DecidableEq

/-- `SassPluginOptions` from the source: the sourcemap flag, optional load
paths, and the optional inline-component data record (modelled as a lookup
function, `none` results modelling absent keys). -/
structure SassPluginOptions where
  sourcemap : Bool
  loadPaths : Option (List String)
  inlineComponentData : Option (String → Option String)

/-- An esbuild resolution oracle: `res url resolveDir` is the `path` field
of `build.resolve(url, \x7b kind: 'import-rule', resolveDir \x7d)`, with
`none` for an unresolved result. -/
abbrev ResolveOracle := String → String → Option String

/-- First successful resolution of `url` over a list of resolve directories
(the `for (const previous of previousResolvedModules)` loop). -/
def firstResolved (res : ResolveOracle) (url : String) : List String → Option String
  | [] => none
  | root :: rest =>
    match res url root with
    | some p => some p
    | none => firstResolved res url rest

/-- `resolveUrl` from `createSassPlugin.setup`: resolve against the build's
working directory; when that fails and `previousResolvedModules` is present
and nonempty, retry once per previous module directory, stopping at the
first success.  (`firstResolved` over `[]` is `none`, matching the skipped
loop when the set is empty.) -/
def resolveUrl (res : ResolveOracle) (cwd : String) (url : String)
    (previousResolvedModules : Option (List String)) : Option String :=
  match res url cwd with
  | some p => some p
  | none =>
    match previousResolvedModules with
    | some roots => firstResolved res url roots
    | none => none

/-- The package deep-import branch of `findFileUrl` (source lines 141-157 and
167-180, identical up to the fallback roots): split the specifier on `/`,
take the package name as the first two segments when the first is
scope-prefixed and the first segment otherwise, resolve
`<packageName>/package.json`, and on success join the manifest's directory
with the second segment (only for an unscoped name with a truthy second
segment) and the remaining segments.  JavaScript destructuring makes the
second segment `undefined` (here `""`, which `packageName` never consults
when it matters and which the truthiness test rejects) when fewer than two
segments exist. -/
def deepImportResolve (res : ResolveOracle) (cwd : String) (url : String)
    (previousResolvedModules : Option (List String)) : Option FileURL :=
  let parts := splitString '/' url
  let nameOrScope := parts.headD ""
  let nameOrFirstPath := (parts.drop 1).headD ""
  let pathPart := parts.drop 2
  let hasScope := decide (2 ≤ parts.length) && strStartsWith nameOrScope "@"
  let packageName := if hasScope then nameOrScope ++ "/" ++ nameOrFirstPath else nameOrScope
  match resolveUrl res cwd (packageName ++ "/package.json") previousResolvedModules with
  | some packagePath =>
    some (pathToFileURL (joinPaths
      (dirname packagePath :: (if !hasScope && nameOrFirstPath ≠ "" then nameOrFirstPath else "") :: pathPart)))
  | none => none

/-- `findFileUrl`, the custom importer passed to the compiler (source lines
132-184): bundler resolution without fallback roots, then the deep-import
check without fallback roots, then both again with the previously resolved
modules as fallback roots, and `null` when everything fails. -/
def findFileUrl (res : ResolveOracle) (cwd : String) (url : String)
    (previousResolvedModules : Option (List String)) : Option FileURL :=
  match resolveUrl res cwd url none with
  | some p => some (pathToFileURL p)
  | none =>
    match deepImportResolve res cwd url none with
    | some u => some u
    | none =>
      match resolveUrl res cwd url previousResolvedModules with
      | some p => some (pathToFileURL p)
      | none => deepImportResolve res cwd url previousResolvedModules

/-- The resolution order stated by the specification, as a short-circuiting
chain of the four strategies.  Used to compare `findFileUrl` against the
spec's wording. -/
def findFileUrlSpec (res : ResolveOracle) (cwd : String) (url : String)
    (previousResolvedModules : Option (List String)) : Option FileURL :=
  ((resolveUrl res cwd url none).map pathToFileURL).orElse (fun _ =>
    (deepImportResolve res cwd url none).orElse (fun _ =>
      ((resolveUrl res cwd url previousResolvedModules).map pathToFileURL).orElse (fun _ =>
        deepImportResolve res cwd url previousResolvedModules)))

/-- A source span reported by the Sass compiler (`SourceSpan`): optional
`file:` URL, optional context line, and 0-based start line/column. -/
structure RawSpan where
  url : Option FileURL
  context : Option String
  startLine : Nat
  startColumn : Nat
deriving DecidableEq

/-- A warning delivered to the plugin's `logger.warn` callback: message
text, deprecation flag, and optional span. -/
structure RawWarning where
  text : String
  deprecation : Bool
  span : Option RawSpan
deriving DecidableEq

/-- The body of the plugin's `logger.warn` callback (source lines 188-199):
deprecations get the fixed text `"Deprecation"` and the original message as
a note; the location, when a span exists, converts the span URL to a path,
copies the context line, adds one to the 0-based Sass line and keeps the
column. -/
def translateWarning (w : RawWarning) : EsbuildMessage :=
  { text := if w.deprecation then "Deprecation" else w.text
    location := w.span.map (fun sp =>
      { file := sp.url.map fileURLToPath
        lineText := sp.context
        line := sp.startLine + 1
        column := sp.startColumn })
    notes := if w.deprecation then some [{ text := w.text }] else none }

/-- A Sass compiler exception (`Exception`): the `sassMessage` field whose
presence `isSassException` tests, the rendered `message`, and the `span`. -/
structure SassException where
  sassMessage : String
  message : String
  span : RawSpan
deriving DecidableEq

/-- A JavaScript exception value reaching the plugin: either a Sass compiler
exception or any other thrown value, identified only by a tag. -/
inductive JsError where
  | sassExc (e : SassException)
  | otherExc (tag : String)
deriving DecidableEq

/-- `isSassException`: the duck-type test for a non-null object carrying a
`sassMessage` field. -/
def isSassException : JsError → Bool
  | .sassExc _ => true
  | .otherExc _ => false

/-- A raw source map returned by the compiler (`CompileResult['sourceMap']`),
restricted to the fields the plugin reads or forwards. -/
structure SourceMap where
  version : Nat
  sources : List String
  names : List String
  mappings : String
  sourcesContent : Option (List String)
  file : Option String
deriving DecidableEq

/-- Lower-case hexadecimal digit. -/
def hexDigit (n : Nat) : Char :=
  if n < 10 then Char.ofNat (48 + n) else Char.ofNat (87 + n)

/-- Four-digit hexadecimal rendering for `\u` escapes. -/
def hex4 (n : Nat) : String :=
  String.mk [hexDigit (n / 4096 % 16), hexDigit (n / 256 % 16), hexDigit (n / 16 % 16), hexDigit (n % 16)]

/-- JSON escaping of one character, as `JSON.stringify` performs it. -/
def jsonEscapeChar (c : Char) : String :=
  if c = '"' then "\\\""
  else if c = '\\' then "\\\\"
  else if c = '\x08' then "\\b"
  else if c = '\x09' then "\\t"
  else if c = '\x0a' then "\\n"
  else if c = '\x0c' then "\\f"
  else if c = '\x0d' then "\\r"
  else if c.toNat < 32 then "\\u" ++ hex4 c.toNat
  else String.singleton c

/-- JSON string literal. -/
def jsonString (s : String) : String :=
  "\"" ++ String.join (s.toList.map jsonEscapeChar) ++ "\""

/-- JSON array of string literals. -/
def jsonStringArray (xs : List String) : String :=
  "[" ++ ",".intercalate (xs.map jsonString) ++ "]"

/-- `JSON.stringify` of the source-map object, with the model's fixed field
order and optional fields omitted when absent. -/
def jsonOfSourceMap (sm : SourceMap) : String :=
  "\x7b\"version\":" ++ toString sm.version ++
  ",\"sources\":" ++ jsonStringArray sm.sources ++
  ",\"names\":" ++ jsonStringArray sm.names ++
  ",\"mappings\":" ++ jsonString sm.mappings ++
  (match sm.sourcesContent with
   | some cs => ",\"sourcesContent\":" ++ jsonStringArray cs
   | none => "") ++
  (match sm.file with
   | some f => ",\"file\":" ++ jsonString f
   | none => "") ++
  "\x7d"

/-- The base64 digit alphabet used by `Buffer.toString('base64')`. -/
def base64Digit (n : Nat) : Char :=
  if n < 26 then Char.ofNat (65 + n)
  else if n < 52 then Char.ofNat (97 + (n - 26))
  else if n < 62 then Char.ofNat (48 + (n - 52))
  else if n = 62 then '+'
  else '/'

/-- Standard base64 encoding of a byte list, with `=` padding. -/
def base64Encode : List UInt8 → String
  | [] => ""
  | [b0] =>
    String.mk [base64Digit (b0.toNat / 4), base64Digit (b0.toNat % 4 * 16), '=', '=']
  | [b0, b1] =>
    String.mk [base64Digit (b0.toNat / 4), base64Digit (b0.toNat % 4 * 16 + b1.toNat / 16),
      base64Digit (b1.toNat % 16 * 4), '=']
  | b0 :: b1 :: b2 :: rest =>
    String.mk [base64Digit (b0.toNat / 4), base64Digit (b0.toNat % 4 * 16 + b1.toNat / 16),
      base64Digit (b1.toNat % 16 * 4 + b2.toNat / 64), base64Digit (b2.toNat % 64)] ++
    base64Encode rest

/-- `Buffer.from(s, 'utf-8').toString('base64')`. -/
def base64OfString (s : String) : String :=
  base64Encode s.toUTF8.toList

/-- The `sources` rewrite inside `sourceMapToUrlComment` (source line 236):
each source string is converted from a `file:` URL to a path relative to
`root`; a source that is not a `file://` URL makes `fileURLToPath` throw,
modelled by a `none` overall result (the thrown error aborts the whole
`map`). -/
def rewriteSources (root : String) : List String → Option (List String)
  | [] => some []
  | src :: rest =>
    match fileURLToPathS src with
    | none => none
    | some p =>
      match rewriteSources root rest with
      | none => none
      | some ps => some (relativePath root p :: ps)

/-- The in-place mutation of the source map performed by
`sourceMapToUrlComment`, as a record update: only `sources` is replaced. -/
def rewriteMap (root : String) (sm : SourceMap) : Option SourceMap :=
  (rewriteSources root sm.sources).map (fun ss => { sm with sources := ss })

/-- `sourceMapToUrlComment` (source lines 230-241): rewrite the sources,
then render the JSON-serialized map as a base64 `sourceMappingURL` inline
comment. -/
def sourceMapToUrlComment (sm : SourceMap) (root : String) : Option String :=
  (rewriteMap root sm).map (fun sm2 =>
    "/*# sourceMappingURL=data:application/json;charset=utf-8;base64," ++
      base64OfString (jsonOfSourceMap sm2) ++ " */")

/-- The options object the plugin passes to `compileStringAsync` (source
lines 122-129), omitting the importer and logger callbacks, which are
modelled separately (`findFileUrl`, `translateWarning`). -/
structure CompilerRequest where
  data : String
  url : FileURL
  style : String
  dialect : SassDialect
  loadPaths : Option (List String)
  sourceMap : Bool
  sourceMapIncludeSources : Bool
  quietDeps : Bool

/-- One run of the external Sass compiler: either a `CompileResult` together
with the warnings delivered to the logger, or a rejection carrying the
warnings delivered before the failure and the thrown value. -/
inductive CompilerRun where
  | success (warnings : List RawWarning) (css : String) (sourceMap : Option SourceMap)
      (loadedUrls : List FileURL)
  | failure (warnings : List RawWarning) (exn : JsError)

/-- The source map carried by a compiler run, `none` on failure. -/
def runSourceMap : CompilerRun → Option SourceMap
  | .success _ _ sm _ => sm
  | .failure _ _ => none

/-- The request `compileString` builds for the compiler: expanded style, the
file path as a `file:` URL, the configured load paths, source-map generation
and source inclusion both gated on the `sourcemap` option, and quiet
dependencies. -/
def mkSassRequest (data : String) (filePath : String) (dialect : SassDialect)
    (options : SassPluginOptions) : CompilerRequest :=
  { data := data
    url := pathToFileURL filePath
    style := "expanded"
    dialect := dialect
    loadPaths := options.loadPaths
    sourceMap := options.sourcemap
    sourceMapIncludeSources := options.sourcemap
    quietDeps := true }

/-- The result construction of `compileString` around one compiler run
(source lines 204-227): on success, the CSS with the source-map comment
appended when a map was produced (a map whose sources resist the URL
rewrite makes `fileURLToPath` throw a non-Sass error, which the catch
re-throws), the loaded URLs as watch files, and the translated warnings; on
rejection, a Sass exception becomes a single-error result keeping the
accumulated warnings and watching the span's file when present, and any
other thrown value is re-thrown. -/
def compileOutcome (run : CompilerRun) (filePath : String) : Except JsError OnLoadResult :=
  match run with
  | .success ws css sm urls =>
    match sm with
    | some m =>
      match sourceMapToUrlComment m (dirname filePath) with
      | some comment =>
        .ok { loader := "css"
              contents := some (css ++ "\n" ++ comment)
              errors := none
              warnings := ws.map translateWarning
              watchFiles := some (urls.map fileURLToPath) }
      | none => .error (.otherExc "ERR_INVALID_URL")
    | none =>
      .ok { loader := "css"
            contents := some css
            errors := none
            warnings := ws.map translateWarning
            watchFiles := some (urls.map fileURLToPath) }
  | .failure ws e =>
    match e with
    | .sassExc se =>
      .ok { loader := "css"
            contents := none
            errors := some [{ text := se.message, location := none, notes := none }]
            warnings := ws.map translateWarning
            watchFiles := se.span.url.map (fun u => [fileURLToPath u]) }
    | .otherExc t => .error (.otherExc t)

/-- `compileString` (source lines 107-228) over a compiler oracle: build the
request, run the compiler, and normalize the outcome. -/
def compileString (compiler : CompilerRequest → CompilerRun) (data : String)
    (filePath : String) (dialect : SassDialect) (options : SassPluginOptions) :
    Except JsError OnLoadResult :=
  compileOutcome (compiler (mkSassRequest data filePath dialect options)) filePath

/-- The load-result cache contract (`get`/`put` keyed by a string), modelled
as a total lookup function. -/
abbrev ResultCache := String → Option OnLoadResult

/-- `cache.put`: the store after writing `v` under key `k`. -/
def cachePut (c : ResultCache) (k : String) (v : OnLoadResult) : ResultCache :=
  fun k2 => if k2 = k then some v else c k2

/-- A failure escaping a load handler: the inline handler's assertion, or a
value thrown out of `compileString`. -/
inductive LoadError where
  | assertionFailed (msg : String)
  | compileThrow (e : JsError)

/-- What one load-handler invocation produced: its returned (or thrown)
result, the cache afterwards, and whether the compiler was invoked. -/
structure HandlerOutcome where
  res : Except LoadError OnLoadResult
  cache : Option ResultCache
  invokedCompiler : Bool

/-- The inline-style load handler (source lines 66-86): fetch the inline
source text for the encoded path, asserting it exists; look the text up in
the cache; on a miss, decode the dialect and file path from the first and
third `;`-separated fields, compile, and cache the result only when its
`errors` field is absent, keyed by the inline content string. -/
def inlineOnLoad (compile : String → String → SassDialect → Except JsError OnLoadResult)
    (options : SassPluginOptions) (cache : Option ResultCache) (argsPath : String) :
    HandlerOutcome :=
  match options.inlineComponentData.bind (fun m => m argsPath) with
  | none =>
    { res := .error (.assertionFailed
        ("component style name should always be found [" ++ argsPath ++ "]"))
      cache := cache
      invokedCompiler := false }
  | some data =>
    match cache.bind (fun c => c data) with
    | some r => { res := .ok r, cache := cache, invokedCompiler := false }
    | none =>
      let parts := (splitString ';' argsPath).take 3
      let language := parts.headD ""
      let filePath := (parts.drop 2).headD ""
      let dialect := if language = "sass" then SassDialect.indented else SassDialect.scss
      match compile data filePath dialect with
      | .error e => { res := .error (.compileThrow e), cache := cache, invokedCompiler := true }
      | .ok result =>
        match result.errors with
        | none =>
          { res := .ok result
            cache := cache.map (fun c => cachePut c data result)
            invokedCompiler := true }
        | some _ => { res := .ok result, cache := cache, invokedCompiler := true }

/-- The file load handler (source lines 88-102): look the absolute path up
in the cache; on a miss, read the file, derive the dialect from the
lower-cased extension, compile, and cache the result only when its `errors`
field is absent, keyed by the path. -/
def fileOnLoad (compile : String → String → SassDialect → Except JsError OnLoadResult)
    (readFileOracle : String → String) (cache : Option ResultCache) (argsPath : String) :
    HandlerOutcome :=
  match cache.bind (fun c => c argsPath) with
  | some r => { res := .ok r, cache := cache, invokedCompiler := false }
  | none =>
    let data := readFileOracle argsPath
    let dialect := if (extname argsPath).toLower = ".sass" then SassDialect.indented
      else SassDialect.scss
    match compile data argsPath dialect with
    | .error e => { res := .error (.compileThrow e), cache := cache, invokedCompiler := true }
    | .ok result =>
      match result.errors with
      | none =>
        { res := .ok result
          cache := cache.map (fun c => cachePut c argsPath result)
          invokedCompiler := true }
      | some _ => { res := .ok result, cache := cache, invokedCompiler := true }

/-- A concrete deprecation warning used to witness the warning-translation
behavior. -/
def sassDepWarning : RawWarning :=
  { text := "old api"
    deprecation := true
    span := some
      { url := some (pathToFileURL "/proj/src/a.scss")
        context := some "slash divide"
        startLine := 4
        startColumn := 2 } }

/-- A concrete error result, as the catch branch of `compileString` builds
one. -/
def sassErrResult : OnLoadResult :=
  { loader := "css"
    contents := none
    errors := some [{ text := "expected semicolon", location := none, notes := none }]
    warnings := []
    watchFiles := none }

/-- A concrete successful compilation result. -/
def sassOkResult : OnLoadResult :=
  { loader := "css"
    contents := some "div color red"
    errors := none
    warnings := []
    watchFiles := some ["/proj/src/a.scss"] }

/-- Concrete plugin options with one registered inline component style. -/
def sassInlineOptions : SassPluginOptions :=
  { sourcemap := false
    loadPaths := none
    inlineComponentData := some (fun k =>
      if k = "scss;comp-1;/proj/src/comp.ts" then some "$x: 1;" else none) }

/-- The empty result cache. -/
def emptyCache : ResultCache := fun _ => none

/-- A cache holding a result under an inline content-string key. -/
def inlineKeyCache : ResultCache :=
  fun k => if k = "$x: 1;" then some sassOkResult else none

/-- A cache holding a result under a file-path key. -/
def fileKeyCache : ResultCache :=
  fun k => if k = "/proj/src/a.scss" then some sassOkResult else none

/-- A resolver that only knows the two package manifests of the deep-import
witness, from the build's working directory. -/
def deepImportOracle : ResolveOracle := fun u d =>
  if d = "/cwd" then
    if u = "@scope/pkg/package.json" then some "/nm/@scope/pkg/package.json"
    else if u = "pkg/package.json" then some "/nm/pkg/package.json"
    else none
  else none

/-- A resolver that only knows the manifest of a plain package name. -/
def plainPackageOracle : ResolveOracle := fun u d =>
  if u = "pkg/package.json" && d = "/cwd" then some "/nm/pkg/package.json" else none

/-- A concrete compiler-produced source map with one `file:` URL source. -/
def sassMapFixture : SourceMap :=
  { version := 3
    sources := ["file:///proj/src/a.scss"]
    names := []
    mappings := "AAAA"
    sourcesContent := none
    file := none }

/-- `sassMapFixture` after the sources rewrite against root `/proj/src`. -/
def sassRewrittenFixture : SourceMap :=
  { version := 3
    sources := ["a.scss"]
    names := []
    mappings := "AAAA"
    sourcesContent := none
    file := none }

/-- A source map with no sources at all. -/
def emptySourcesMap : SourceMap :=
  { version := 3
    sources := []
    names := []
    mappings := ""
    sourcesContent := none
    file := none }

/-- Plugin options requesting a source map, with no inline data. -/
def sassMapOptions : SassPluginOptions :=
  { sourcemap := true
    loadPaths := none
    inlineComponentData := none }

/-- A compiler oracle that succeeds with fixed CSS and honors the
source-map gate: it produces `sassMapFixture` exactly when the request asks
for a map. -/
def sassMapCompiler : CompilerRequest → CompilerRun := fun req =>
  CompilerRun.success [] "div color red"
    (if req.sourceMap then some sassMapFixture else none)
    [pathToFileURL "/proj/src/a.scss"]

/-- `dirname` never returns the empty string: every branch yields `"."`,
`"/"`, or a string built from a nonempty character list. -/
theorem dirname_ne_empty (p : String) : dirname p ≠ "" := by
  unfold dirname
  split
  · simp
  · split
    · simp
    · split
      · simp
      · split
        · simp
        · rename_i hne
          intro hc
          have h2 := congrArg String.data hc
          simp only [String.data] at h2
          simp_all

/-- An all-failing resolve oracle makes `firstResolved` fail on every root
list. -/
theorem firstResolved_none (res : ResolveOracle) (h : ∀ u d, res u d = none)
    (url : String) (roots : List String) : firstResolved res url roots = none := by
  induction roots with
  | nil => rfl
  | cons r rs ih => simp [firstResolved, h, ih]

/-- Claim C2: a rejection of the compiler invocation inside `compileString`
with the recognized compiler-exception shape yields a load result with
exactly one error carrying the exception's message, no contents, the
warnings accumulated before the failure, and a watch list holding exactly
the span's file when the span has a URL; any other thrown value is
re-thrown. -/
theorem sass_compile_failure (ws : List RawWarning) (se : SassException)
    (t data filePath : String) (dialect : SassDialect) (options : SassPluginOptions) :
    compileString (fun _ => CompilerRun.failure ws (JsError.sassExc se))
        data filePath dialect options =
      .ok { loader := "css"
            contents := none
            errors := some [{ text := se.message, location := none, notes := none }]
            warnings := ws.map translateWarning
            watchFiles := se.span.url.map (fun u => [fileURLToPath u]) } ∧
    compileString (fun _ => CompilerRun.failure ws (JsError.otherExc t))
        data filePath dialect options =
      .error (JsError.otherExc t) :=
  ⟨rfl, rfl⟩

/-- Claim C4: `findFileUrl` tries, in order and stopping at the first
success, bundler resolution without fallback roots, the package-manifest
deep import without fallback roots, bundler resolution with the fallback
roots, and the deep import with the fallback roots; when all four fail it
reports not-found. -/
theorem sass_import_order (res : ResolveOracle) (cwd url : String)
    (prev : Option (List String)) :
    findFileUrl res cwd url prev = findFileUrlSpec res cwd url prev ∧
    (resolveUrl res cwd url none = none → deepImportResolve res cwd url none = none →
      resolveUrl res cwd url prev = none → deepImportResolve res cwd url prev = none →
      findFileUrl res cwd url prev = none) := by
  constructor
  · cases h1 : resolveUrl res cwd url none with
    | some p => simp [findFileUrl, findFileUrlSpec, h1, Option.orElse]
    | none =>
      cases h2 : deepImportResolve res cwd url none with
      | some u => simp [findFileUrl, findFileUrlSpec, h1, h2, Option.orElse]
      | none =>
        cases h3 : resolveUrl res cwd url prev with
        | some p => simp [findFileUrl, findFileUrlSpec, h1, h2, h3, Option.orElse]
        | none => simp [findFileUrl, findFileUrlSpec, h1, h2, h3, Option.orElse]
  · intro h1 h2 h3 h4
    simp [findFileUrl, h1, h2, h3, h4]

/-- Witness for claim C4: with a resolver that never resolves, all four
strategies fail concretely and the importer reports not-found. -/
theorem sass_import_order_witness :
    findFileUrl (fun _ _ => none) "/cwd" "theme/dark" none = none :=
  (sass_import_order (fun _ _ => none) "/cwd" "theme/dark" none).2 rfl rfl rfl rfl

/-- Claim C6: a deprecation warning is translated with text exactly
`"Deprecation"` and one note carrying the original message; a
non-deprecation warning keeps its text and gets no notes; when a span is
present the translated location has the compiler line plus one and the
unchanged column. -/
theorem sass_warning_diag (w : RawWarning) :
    (w.deprecation = true → (translateWarning w).text = "Deprecation" ∧
      (translateWarning w).notes = some [{ text := w.text }]) ∧
    (w.deprecation = false → (translateWarning w).text = w.text ∧
      (translateWarning w).notes = none) ∧
    (∀ sp : RawSpan, w.span = some sp → ∃ loc : ESLocation,
      (translateWarning w).location = some loc ∧ loc.line = sp.startLine + 1 ∧
      loc.column = sp.startColumn) := by
  refine ⟨fun h => ?_, fun h => ?_, fun sp h => ?_⟩
  · simp [translateWarning, h]
  · simp [translateWarning, h]
  · refine ⟨{ file := sp.url.map fileURLToPath
              lineText := sp.context
              line := sp.startLine + 1
              column := sp.startColumn }, ?_, rfl, rfl⟩
    simp [translateWarning, h]

/-- Witness for claim C6: a concrete deprecation warning at 0-based line 4,
column 2 translates to the fixed label, the original message as a note, and
a location at line 5, column 2. -/
theorem sass_warning_diag_witness :
    ((translateWarning sassDepWarning).text = "Deprecation" ∧
     (translateWarning sassDepWarning).notes = some [{ text := "old api" }]) ∧
    (∃ loc : ESLocation,
      (translateWarning sassDepWarning).location = some loc ∧ loc.line = 4 + 1 ∧
      loc.column = 2) :=
  ⟨(sass_warning_diag sassDepWarning).1 rfl,
   (sass_warning_diag sassDepWarning).2.2 _ rfl⟩

/-- Claim C1: on a cache miss, a compilation result carrying a non-empty
errors list is written to the cache by neither handler — so a subsequent
load of the same identity invokes the compiler again — while a result with
no errors is written under the request's identity (the inline content
string for inline styles, the file path for files). -/
theorem sass_error_results_not_cached (options : SassPluginOptions)
    (readF : String → String) (c : ResultCache) (argsPath data : String)
    (r : OnLoadResult) (es : List EsbuildMessage) :
    (options.inlineComponentData.bind (fun m => m argsPath) = some data →
      c data = none → r.errors = some es → es ≠ [] →
      (inlineOnLoad (fun _ _ _ => .ok r) options (some c) argsPath).cache = some c ∧
      (inlineOnLoad (fun _ _ _ => .ok r) options
        ((inlineOnLoad (fun _ _ _ => .ok r) options (some c) argsPath).cache)
        argsPath).invokedCompiler = true) ∧
    (options.inlineComponentData.bind (fun m => m argsPath) = some data →
      c data = none → r.errors = none →
      ∃ c2, (inlineOnLoad (fun _ _ _ => .ok r) options (some c) argsPath).cache = some c2 ∧
        c2 data = some r) ∧
    (c argsPath = none → r.errors = some es → es ≠ [] →
      (fileOnLoad (fun _ _ _ => .ok r) readF (some c) argsPath).cache = some c ∧
      (fileOnLoad (fun _ _ _ => .ok r) readF
        ((fileOnLoad (fun _ _ _ => .ok r) readF (some c) argsPath).cache)
        argsPath).invokedCompiler = true) ∧
    (c argsPath = none → r.errors = none →
      ∃ c2, (fileOnLoad (fun _ _ _ => .ok r) readF (some c) argsPath).cache = some c2 ∧
        c2 argsPath = some r) := by
  refine ⟨fun h1 h2 h3 _ => ?_, fun h1 h2 h3 => ?_, fun h2 h3 _ => ?_, fun h2 h3 => ?_⟩
  · constructor
    · simp [inlineOnLoad, h1, h2, h3]
    · simp [inlineOnLoad, h1, h2, h3]
  · exact ⟨cachePut c data r, by simp [inlineOnLoad, h1, h2, h3], by simp [cachePut]⟩
  · constructor
    · simp [fileOnLoad, h2, h3]
    · simp [fileOnLoad, h2, h3]
  · exact ⟨cachePut c argsPath r, by simp [fileOnLoad, h2, h3], by simp [cachePut]⟩

/-- Claim C5: when a previous successful compilation of an identity sits in
the cache, either handler returns the cached result verbatim and does not
invoke the compiler. -/
theorem sass_cache_hit (compile : String → String → SassDialect → Except JsError OnLoadResult)
    (options : SassPluginOptions) (readF : String → String) (c : ResultCache)
    (argsPath data : String) (r : OnLoadResult) :
    (options.inlineComponentData.bind (fun m => m argsPath) = some data → c data = some r →
      (inlineOnLoad compile options (some c) argsPath).res = .ok r ∧
      (inlineOnLoad compile options (some c) argsPath).invokedCompiler = false) ∧
    (c argsPath = some r →
      (fileOnLoad compile readF (some c) argsPath).res = .ok r ∧
      (fileOnLoad compile readF (some c) argsPath).invokedCompiler = false) := by
  refine ⟨fun h1 h2 => ?_, fun h2 => ?_⟩
  · constructor <;> simp [inlineOnLoad, h1, h2]
  · constructor <;> simp [fileOnLoad, h2]

/-- Witness for claim C1: concretely, an error result leaves the cache
unchanged and a second inline load compiles again, while an error-free file
result lands in the cache under the file path. -/
theorem sass_error_results_not_cached_witness :
    ((inlineOnLoad (fun _ _ _ => .ok sassErrResult) sassInlineOptions (some emptyCache)
        "scss;comp-1;/proj/src/comp.ts").cache = some emptyCache ∧
      (inlineOnLoad (fun _ _ _ => .ok sassErrResult) sassInlineOptions
        ((inlineOnLoad (fun _ _ _ => .ok sassErrResult) sassInlineOptions (some emptyCache)
          "scss;comp-1;/proj/src/comp.ts").cache)
        "scss;comp-1;/proj/src/comp.ts").invokedCompiler = true) ∧
    (∃ c2, (fileOnLoad (fun _ _ _ => .ok sassOkResult) (fun _ => "$x: 1;") (some emptyCache)
        "/proj/src/a.scss").cache = some c2 ∧ c2 "/proj/src/a.scss" = some sassOkResult) :=
  ⟨(sass_error_results_not_cached sassInlineOptions (fun _ => "$x: 1;") emptyCache
      "scss;comp-1;/proj/src/comp.ts" "$x: 1;" sassErrResult
      [{ text := "expected semicolon", location := none, notes := none }]).1
      rfl rfl rfl (by simp),
   (sass_error_results_not_cached sassInlineOptions (fun _ => "$x: 1;") emptyCache
      "/proj/src/a.scss" "$x: 1;" sassOkResult []).2.2.2 rfl rfl⟩

/-- Witness for claim C5: with results cached under the inline content
string and the file path, both handlers answer from the cache without
invoking the (always-failing) compiler. -/
theorem sass_cache_hit_witness :
    ((inlineOnLoad (fun _ _ _ => .error (.otherExc "unused")) sassInlineOptions
        (some inlineKeyCache) "scss;comp-1;/proj/src/comp.ts").res = .ok sassOkResult ∧
      (inlineOnLoad (fun _ _ _ => .error (.otherExc "unused")) sassInlineOptions
        (some inlineKeyCache) "scss;comp-1;/proj/src/comp.ts").invokedCompiler = false) ∧
    ((fileOnLoad (fun _ _ _ => .error (.otherExc "unused")) (fun _ => "") (some fileKeyCache)
        "/proj/src/a.scss").res = .ok sassOkResult ∧
      (fileOnLoad (fun _ _ _ => .error (.otherExc "unused")) (fun _ => "") (some fileKeyCache)
        "/proj/src/a.scss").invokedCompiler = false) :=
  ⟨(sass_cache_hit (fun _ _ _ => .error (.otherExc "unused")) sassInlineOptions (fun _ => "")
      inlineKeyCache "scss;comp-1;/proj/src/comp.ts" "$x: 1;" sassOkResult).1 rfl rfl,
   (sass_cache_hit (fun _ _ _ => .error (.otherExc "unused")) sassInlineOptions (fun _ => "")
      fileKeyCache "/proj/src/a.scss" "$x: 1;" sassOkResult).2 rfl⟩

/-- Claim C3: a deep import under a scoped package name resolves to the
manifest's directory joined with the remaining segments (scope consumed, no
extra segment), and a deep import under an unscoped name resolves to the
manifest's directory joined with the remaining segments (the second segment
re-used as a path prefix); the reconstructed path is reported for any
resolver behavior at that path, that is, without an existence check. -/
theorem sass_deep_import_paths (res : ResolveOracle) (cwd : String)
    (prev : Option (List String)) (mp mp2 : String) :
    (res "@scope/pkg/sub/path" cwd = none →
      res "@scope/pkg/package.json" cwd = some mp →
      findFileUrl res cwd "@scope/pkg/sub/path" prev =
        some (pathToFileURL (dirname mp ++ "/sub/path"))) ∧
    (res "pkg/sub/path" cwd = none →
      res "pkg/package.json" cwd = some mp2 →
      findFileUrl res cwd "pkg/sub/path" prev =
        some (pathToFileURL (dirname mp2 ++ "/sub/path"))) := by
  constructor
  · intro h1 h2
    have hsplit : splitString '/' "@scope/pkg/sub/path" = ["@scope", "pkg", "sub", "path"] := rfl
    have hsw : strStartsWith "@scope" "@" = true := rfl
    have hD := dirname_ne_empty mp
    have e2 : deepImportResolve res cwd "@scope/pkg/sub/path" none =
        some (pathToFileURL (joinPaths [dirname mp, "", "sub", "path"])) := by
      simp [deepImportResolve, hsplit, hsw, resolveUrl, h2]
    have hjoin : joinPaths [dirname mp, "", "sub", "path"] = dirname mp ++ "/sub/path" := by
      simp [joinPaths, List.filter_cons, hD, joinSegs, String.append_assoc]
    simp [findFileUrl, resolveUrl, h1, e2, hjoin]
  · intro h1 h2
    have hsplit : splitString '/' "pkg/sub/path" = ["pkg", "sub", "path"] := rfl
    have hsw : strStartsWith "pkg" "@" = false := rfl
    have hD := dirname_ne_empty mp2
    have e2 : deepImportResolve res cwd "pkg/sub/path" none =
        some (pathToFileURL (joinPaths [dirname mp2, "sub", "path"])) := by
      simp [deepImportResolve, hsplit, hsw, resolveUrl, h2]
    have hjoin : joinPaths [dirname mp2, "sub", "path"] = dirname mp2 ++ "/sub/path" := by
      simp [joinPaths, List.filter_cons, hD, joinSegs, String.append_assoc]
    simp [findFileUrl, resolveUrl, h1, e2, hjoin]

/-- Witness for claim C3: with manifests at `/nm/@scope/pkg/package.json`
and `/nm/pkg/package.json`, the two deep imports resolve to the expected
joined paths. -/
theorem sass_deep_import_paths_witness :
    findFileUrl deepImportOracle "/cwd" "@scope/pkg/sub/path" none =
      some (pathToFileURL (dirname "/nm/@scope/pkg/package.json" ++ "/sub/path")) ∧
    findFileUrl deepImportOracle "/cwd" "pkg/sub/path" none =
      some (pathToFileURL (dirname "/nm/pkg/package.json" ++ "/sub/path")) :=
  ⟨(sass_deep_import_paths deepImportOracle "/cwd" none
      "/nm/@scope/pkg/package.json" "/nm/pkg/package.json").1 rfl rfl,
   (sass_deep_import_paths deepImportOracle "/cwd" none
      "/nm/@scope/pkg/package.json" "/nm/pkg/package.json").2 rfl rfl⟩

/-- Claim C9: a slash-free specifier whose manifest resolves is answered
with the manifest's own directory, no deep-import subpath appended; and for
every specifier — the empty string included — when nothing resolves the
importer reports not-found rather than failing. -/
theorem sass_plain_package (res : ResolveOracle) (cwd url mp : String)
    (prev : Option (List String)) :
    (splitString '/' url = [url] → res url cwd = none →
      res (url ++ "/package.json") cwd = some mp →
      findFileUrl res cwd url prev = some (pathToFileURL (dirname mp))) ∧
    ((∀ u d, res u d = none) → ∀ u2 prev2, findFileUrl res cwd u2 prev2 = none) := by
  constructor
  · intro h0 h1 h2
    have hD := dirname_ne_empty mp
    have e1 : resolveUrl res cwd url none = none := by simp [resolveUrl, h1]
    have e2 : deepImportResolve res cwd url none =
        some (pathToFileURL (joinPaths [dirname mp, ""])) := by
      simp [deepImportResolve, h0, resolveUrl, h2]
    have hjoin : joinPaths [dirname mp, ""] = dirname mp := by
      simp [joinPaths, List.filter_cons, hD, joinSegs]
    simp [findFileUrl, e1, e2, hjoin]
  · intro hall u2 prev2
    have hru : ∀ u p, resolveUrl res cwd u p = none := by
      intro u p
      cases p with
      | none => simp [resolveUrl, hall]
      | some roots => simp [resolveUrl, hall, firstResolved_none res hall]
    have hd : ∀ u p, deepImportResolve res cwd u p = none := by
      intro u p
      simp [deepImportResolve, hru]
    simp [findFileUrl, hru, hd]

/-- Witness for claim C9: the plain name `pkg` resolves to the directory of
its manifest, and the empty specifier against a blind resolver reports
not-found. -/
theorem sass_plain_package_witness :
    findFileUrl plainPackageOracle "/cwd" "pkg" none =
      some (pathToFileURL (dirname "/nm/pkg/package.json")) ∧
    findFileUrl (fun _ _ => none) "/cwd" "" none = none :=
  ⟨(sass_plain_package plainPackageOracle "/cwd" "pkg" "/nm/pkg/package.json" none).1
      rfl rfl rfl,
   (sass_plain_package (fun _ _ => none) "/cwd" "x" "unused" none).2 (fun _ _ => rfl) "" none⟩

/-- Claim C7: a successful compilation's contents end with the base64
`sourceMappingURL` inline comment — whose payload is the base64 encoding of
the UTF-8 JSON serialization of the path-rewritten map — exactly when the
compiler produced a source map; with a compiler honoring the request's
gate, a `sourcemap := false` request yields the bare CSS with no trailing
comment. -/
theorem sass_sourcemap_comment (compiler : CompilerRequest → CompilerRun)
    (data filePath css : String) (dialect : SassDialect) (options : SassPluginOptions)
    (ws : List RawWarning) (urls : List FileURL) :
    (∀ m sm2, compiler (mkSassRequest data filePath dialect options) =
        CompilerRun.success ws css (some m) urls →
      rewriteMap (dirname filePath) m = some sm2 →
      ∃ r, compileString compiler data filePath dialect options = .ok r ∧
        r.contents = some (css ++ "\n" ++
          ("/*# sourceMappingURL=data:application/json;charset=utf-8;base64," ++
            base64OfString (jsonOfSourceMap sm2) ++ " */"))) ∧
    (compiler (mkSassRequest data filePath dialect options) =
        CompilerRun.success ws css none urls →
      ∃ r, compileString compiler data filePath dialect options = .ok r ∧
        r.contents = some css) ∧
    (options.sourcemap = false →
      (∀ req, req.sourceMap = false → runSourceMap (compiler req) = none) →
      ∀ sm, compiler (mkSassRequest data filePath dialect options) =
          CompilerRun.success ws css sm urls →
        ∃ r, compileString compiler data filePath dialect options = .ok r ∧
          r.contents = some css) := by
  refine ⟨fun m sm2 h1 h2 => ?_, fun h1 => ?_, fun hflag hgate sm h1 => ?_⟩
  · have e : sourceMapToUrlComment m (dirname filePath) = some
        ("/*# sourceMappingURL=data:application/json;charset=utf-8;base64," ++
          base64OfString (jsonOfSourceMap sm2) ++ " */") := by
      simp [sourceMapToUrlComment, h2]
    refine ⟨{ loader := "css"
              contents := some (css ++ "\n" ++
                ("/*# sourceMappingURL=data:application/json;charset=utf-8;base64," ++
                  base64OfString (jsonOfSourceMap sm2) ++ " */"))
              errors := none
              warnings := ws.map translateWarning
              watchFiles := some (urls.map fileURLToPath) }, ?_, rfl⟩
    simp [compileString, h1, compileOutcome, e]
  · refine ⟨{ loader := "css"
              contents := some css
              errors := none
              warnings := ws.map translateWarning
              watchFiles := some (urls.map fileURLToPath) }, ?_, rfl⟩
    simp [compileString, h1, compileOutcome]
  · have hsm : sm = none := by
      have hg := hgate (mkSassRequest data filePath dialect options)
        (by simp [mkSassRequest, hflag])
      rw [h1] at hg
      simpa [runSourceMap] using hg
    subst hsm
    refine ⟨{ loader := "css"
              contents := some css
              errors := none
              warnings := ws.map translateWarning
              watchFiles := some (urls.map fileURLToPath) }, ?_, rfl⟩
    simp [compileString, h1, compileOutcome]

/-- Witness for claim C7: the gating compiler fixture produces the CSS with
the base64 comment for the rewritten one-source map when a map is
requested, and the bare CSS when the request turns source maps off. -/
theorem sass_sourcemap_comment_witness :
    (∃ r, compileString sassMapCompiler "$x: 1;" "/proj/src/a.scss" SassDialect.scss
        sassMapOptions = .ok r ∧
      r.contents = some ("div color red" ++ "\n" ++
        ("/*# sourceMappingURL=data:application/json;charset=utf-8;base64," ++
          base64OfString (jsonOfSourceMap sassRewrittenFixture) ++ " */"))) ∧
    (∃ r, compileString sassMapCompiler "$x: 1;" "/proj/src/a.scss" SassDialect.scss
        sassInlineOptions = .ok r ∧ r.contents = some "div color red") :=
  ⟨(sass_sourcemap_comment sassMapCompiler "$x: 1;" "/proj/src/a.scss" "div color red"
      SassDialect.scss sassMapOptions [] [pathToFileURL "/proj/src/a.scss"]).1
      sassMapFixture sassRewrittenFixture rfl rfl,
   (sass_sourcemap_comment sassMapCompiler "$x: 1;" "/proj/src/a.scss" "div color red"
      SassDialect.scss sassInlineOptions [] [pathToFileURL "/proj/src/a.scss"]).2.2
      rfl (fun req h => by simp [sassMapCompiler, runSourceMap, h]) none rfl⟩

/-- Counterexample for claim C8: rewriting a map whose single source is the
relative path `a.scss` does not leave it unchanged — the file-URL
conversion fails (Node throws), so the rewrite yields no map at all. -/
theorem sass_rewrite_idem_cex :
    ¬ (rewriteMap "/out" sassRewrittenFixture = some sassRewrittenFixture) := by decide

/-- Claim C8 (amended): the sources rewrite is not idempotent — applied to
a map containing a source that is not a `file://` URL (in particular a path
already relative to the output directory) it fails rather than leaving the
paths unchanged; only a map with no sources is returned unchanged. -/
theorem sass_rewrite_relative_fails (root : String) (sm : SourceMap) (s : String) :
    (s ∈ sm.sources → strStartsWith s "file://" = false → rewriteMap root sm = none) ∧
    (sm.sources = [] → rewriteMap root sm = some sm) := by
  constructor
  · intro hmem hpre
    have hnone : ∀ l : List String, s ∈ l → rewriteSources root l = none := by
      intro l
      induction l with
      | nil => intro h; cases h
      | cons x xs ih =>
        intro h
        rcases List.mem_cons.mp h with h | h
        · subst h
          simp [rewriteSources, fileURLToPathS, hpre]
        · cases hx : fileURLToPathS x with
          | none => simp [rewriteSources, hx]
          | some p => simp [rewriteSources, hx, ih h]
    simp [rewriteMap, hnone sm.sources hmem]
  · intro h
    cases sm with
    | mk v srcs nms mps sc f =>
      simp only at h
      subst h
      simp [rewriteMap, rewriteSources]

/-- Witness for claim C8's amended statement: the concrete relative-source
map fails to rewrite, and the concrete empty-sources map is unchanged. -/
theorem sass_rewrite_relative_fails_witness :
    rewriteMap "/out" sassRewrittenFixture = none ∧
    rewriteMap "/out" emptySourcesMap = some emptySourcesMap :=
  ⟨(sass_rewrite_relative_fails "/out" sassRewrittenFixture "a.scss").1 (by simp
      [sassRewrittenFixture]) rfl,
   (sass_rewrite_relative_fails "/out" emptySourcesMap "x").2 rfl⟩

/-- Claim C10: the source-map rewrite replaces only the `sources` field —
with each entry converted from a `file:` URL to a path relative to the
given root — and every other field reaches the serialized base64 payload
unchanged. -/
theorem sass_rewrite_frame (root : String) (sm sm2 : SourceMap) :
    rewriteMap root sm = some sm2 →
    sm2.version = sm.version ∧ sm2.names = sm.names ∧ sm2.mappings = sm.mappings ∧
    sm2.sourcesContent = sm.sourcesContent ∧ sm2.file = sm.file ∧
    some sm2.sources = rewriteSources root sm.sources ∧
    sourceMapToUrlComment sm root = some
      ("/*# sourceMappingURL=data:application/json;charset=utf-8;base64," ++
        base64OfString (jsonOfSourceMap sm2) ++ " */") := by
  intro h
  have h2 := h
  unfold rewriteMap at h2
  cases hr : rewriteSources root sm.sources with
  | none => rw [hr] at h2; simp at h2
  | some ss =>
    rw [hr] at h2
    simp only [Option.map_some'] at h2
    have h3 := Option.some.inj h2
    subst h3
    refine ⟨rfl, rfl, rfl, rfl, rfl, by simp [hr], ?_⟩
    simp [sourceMapToUrlComment, h]

/-- Witness for claim C10: the one-source fixture rewrites to the relative
fixture with every non-sources field intact and the expected serialized
comment. -/
theorem sass_rewrite_frame_witness :
    sassRewrittenFixture.version = sassMapFixture.version ∧
    sassRewrittenFixture.names = sassMapFixture.names ∧
    sassRewrittenFixture.mappings = sassMapFixture.mappings ∧
    sassRewrittenFixture.sourcesContent = sassMapFixture.sourcesContent ∧
    sassRewrittenFixture.file = sassMapFixture.file ∧
    some sassRewrittenFixture.sources = rewriteSources "/proj/src" sassMapFixture.sources ∧
    sourceMapToUrlComment sassMapFixture "/proj/src" = some
      ("/*# sourceMappingURL=data:application/json;charset=utf-8;base64," ++
        base64OfString (jsonOfSourceMap sassRewrittenFixture) ++ " */") :=
  sass_rewrite_frame "/proj/src" sassMapFixture sassRewrittenFixture rfl
